import Mathlib

/-
Verification of the Educational AI Agent repository.

The executable logic of the repository lives in two frontend files:
`frontend/src/app.jsx` (a self-contained React component whose
`generateResponse`/`handleSend` functions perform topic detection and all
learner-state updates locally) and an unnamed TypeScript variant of the same
component that delegates the reply to a backend over HTTP and falls back to a
static message when the call fails.  Both are embedded below as pure state
transformers.  Backend components that the specification describes but whose
code is not present in the repository (the bounded Session Store, the
`topicMastery` map and the LearningGraph aggregator) are modelled from the
specification text; each such definition is marked `Modelled from the spec`.
-/

/- ### String primitives

Models of the JavaScript string operations used by the sources, restricted to
the ASCII text the application manipulates: `String.prototype.toLowerCase`,
`String.prototype.includes` and `String.prototype.trim`. -/

/-- ASCII lower-casing of one character, as `toLowerCase` acts on `A`-`Z`. -/
def lowerChar (c : Char) : Char :=
  if 65 ≤ c.toNat ∧ c.toNat ≤ 90 then Char.ofNat (c.toNat + 32) else c

/-- Model of `String.prototype.toLowerCase` on ASCII text. -/
def lowerStr (s : String) : String :=
  String.mk (s.toList.map lowerChar)

/-- Does `needle` occur as a contiguous infix of `hay`?  (Substring search,
the semantics of `String.prototype.includes`.) -/
def containsSeq (needle : List Char) : List Char → Bool
  | [] => needle.isEmpty
  | c :: rest => needle.isPrefixOf (c :: rest) || containsSeq needle rest

/-- Model of `hay.includes(needle)` for JavaScript strings. -/
def strIncludes (hay needle : String) : Bool :=
  containsSeq needle.toList hay.toList

/-- Model of `String.prototype.trim`: strip whitespace from both ends. -/
def trimStr (s : String) : String :=
  String.mk (((s.toList.dropWhile Char.isWhitespace).reverse.dropWhile
    Char.isWhitespace).reverse)

/- ### Data model of `frontend/src/app.jsx` -/

/-- One chat message as held in the `messages` state of `app.jsx`. -/
structure Message where
  role : String
  content : String
  deriving DecidableEq

/-- The `learnerProfile` state of `app.jsx`. -/
structure LearnerProfile where
  name : String
  level : String
  progress : Int
  topics : List String
  deriving DecidableEq

/-- The `sessionData` state of `app.jsx`. -/
structure SessionData where
  questionsAsked : Nat
  topicsExplored : List String
  sessionTime : Nat
  deriving DecidableEq

/-- One entry of the `aiTopics` table of `app.jsx`. -/
structure AiTopic where
  name : String
  keywords : List String
  deriving DecidableEq

/-- The fixed `aiTopics` topic/keyword table of `app.jsx` (lines 34-41). -/
def aiTopics : List AiTopic :=
  [ ⟨"Machine Learning Basics", ["machine learning", "ml", "training", "model"]⟩,
    ⟨"Neural Networks", ["neural", "network", "deep learning", "neurons"]⟩,
    ⟨"Natural Language Processing", ["nlp", "language", "text", "chatbot"]⟩,
    ⟨"Computer Vision", ["vision", "image", "recognition", "detection"]⟩,
    ⟨"AI Ethics", ["ethics", "bias", "fairness", "responsible"]⟩,
    ⟨"Generative AI", ["generative", "gpt", "llm", "generate"]⟩ ]

/-- Topic detection of `generateResponse` (`app.jsx` lines 44-53): lower-case
the message, then scan the `aiTopics` table in order and `break` at the first
topic one of whose keywords occurs in the message.  At most one topic name is
produced; `none` models `detectedTopic = null`. -/
def detectTopic (userMessage : String) : Option String :=
  let lowerMsg := lowerStr userMessage
  (aiTopics.find? fun topic => topic.keywords.any fun kw =>
    strIncludes lowerMsg kw).map AiTopic.name

/-- Helper for `jsSetDedup`: drop elements already seen, keeping first
occurrences in order. -/
def jsSetAux (seen : List String) : List String → List String
  | [] => []
  | x :: xs => if x ∈ seen then jsSetAux seen xs else x :: jsSetAux (x :: seen) xs

/-- Model of `[...new Set(l)]` in JavaScript: deduplicate, keeping the first
occurrence of each element, preserving insertion order. -/
def jsSetDedup (l : List String) : List String :=
  jsSetAux [] l

/-- The state-update effect of `generateResponse` (`app.jsx` lines 55-65): if
a topic was detected and is not yet in `sessionData.topicsExplored`, append it
to `topicsExplored`, raise `progress` by 15 clamped at 100, and add the topic
to the profile field `topics` through `[...new Set(...)]`. -/
def generateResponseUpdate (userMessage : String) (sd : SessionData)
    (lp : LearnerProfile) : SessionData × LearnerProfile :=
  match detectTopic userMessage with
  | none => (sd, lp)
  | some t =>
    if t ∈ sd.topicsExplored then (sd, lp)
    else
      ({ sd with topicsExplored := sd.topicsExplored ++ [t] },
       { lp with
          progress := min 100 (lp.progress + 15),
          topics := jsSetDedup (lp.topics ++ [t]) })

/-- Initial `learnerProfile` state of `app.jsx`. -/
def initialLearnerProfile : LearnerProfile :=
  { name := "Student", level := "Beginner", progress := 0, topics := [] }

/-- Initial `sessionData` state of `app.jsx`. -/
def initialSessionData : SessionData :=
  { questionsAsked := 0, topicsExplored := [], sessionTime := 0 }

/-- The session/profile state reached from the initial `app.jsx` state after
processing the given learner messages in order, one turn each. -/
def runUpdates (msgs : List String) : SessionData × LearnerProfile :=
  msgs.foldl (fun sp m => generateResponseUpdate m sp.1 sp.2)
    (initialSessionData, initialLearnerProfile)

/-- The reply text chosen by `generateResponse` (`app.jsx` lines 71-99): a
cascade of keyword checks on the lower-cased message, each returning a fixed
string, with a default reply at the end. -/
def generateReply (userMessage : String) : String :=
  let lowerMsg := lowerStr userMessage
  if strIncludes lowerMsg "machine learning" || strIncludes lowerMsg "ml" then
    "Machine Learning is a subset of AI where computers learn from data without being explicitly programmed. Think of it like teaching a child to recognize animals - you show them examples, and they learn patterns. There are three main types:\n\n1. **Supervised Learning**: Learning from labeled examples (like flashcards)\n2. **Unsupervised Learning**: Finding patterns in unlabeled data\n3. **Reinforcement Learning**: Learning through trial and error\n\nWould you like to explore any of these in more detail?"
  else if strIncludes lowerMsg "neural" || strIncludes lowerMsg "deep learning" then
    "Neural Networks are inspired by the human brain! They consist of layers of interconnected \x27neurons\x27 that process information. Imagine water flowing through a series of filters - each layer extracts different features.\n\n**Key Concepts:**\n- Input Layer: Receives raw data\n- Hidden Layers: Process and transform data\n- Output Layer: Makes predictions\n\nDeep Learning uses many hidden layers, allowing it to learn complex patterns. This is what powers things like image recognition and language translation!"
  else if strIncludes lowerMsg "nlp" || strIncludes lowerMsg "language" then
    "Natural Language Processing (NLP) helps computers understand human language! It\x27s what allows chatbots, translators, and voice assistants to work.\n\n**Cool Applications:**\n- Chatbots (like me!)\n- Language translation\n- Sentiment analysis (understanding emotions in text)\n- Text summarization\n\nRecent advances like GPT models have revolutionized NLP by understanding context much better than before!"
  else if strIncludes lowerMsg "vision" || strIncludes lowerMsg "image" then
    "Computer Vision teaches computers to \x27see\x27 and understand images! It\x27s used in:\n\n- Facial recognition\n- Self-driving cars\n- Medical image analysis\n- Object detection\n\nModern computer vision uses Convolutional Neural Networks (CNNs) that learn to recognize features like edges, shapes, and textures automatically!"
  else if strIncludes lowerMsg "ethics" || strIncludes lowerMsg "bias" then
    "AI Ethics is crucial! As AI becomes more powerful, we must ensure it\x27s fair and beneficial. Key concerns include:\n\n1. **Bias**: AI can inherit human biases from training data\n2. **Privacy**: Protecting personal information\n3. **Transparency**: Understanding how AI makes decisions\n4. **Accessibility**: Ensuring AI benefits everyone, not just the privileged\n\nRemember: AI should empower people, not replace human judgment in critical decisions!"
  else if strIncludes lowerMsg "generative" || strIncludes lowerMsg "gpt" ||
      strIncludes lowerMsg "llm" then
    "Generative AI creates new content - text, images, music, and more! Large Language Models (LLMs) like GPT are trained on massive amounts of text to understand and generate human-like responses.\n\n**How it works:**\n1. Training on billions of text examples\n2. Learning patterns and relationships\n3. Predicting what comes next\n\n**Applications:**\n- Writing assistance\n- Code generation\n- Creative content\n- Education (like this conversation!)\n\nThese models are democratizing access to knowledge and creativity!"
  else if strIncludes lowerMsg "start" || strIncludes lowerMsg "begin" ||
      strIncludes lowerMsg "learn" then
    "Great! Let\x27s start your AI journey. Here are beginner-friendly topics:\n\n1. **What is AI?** - Understanding the basics\n2. **Machine Learning** - How computers learn\n3. **Real-world Applications** - AI in daily life\n4. **Getting Started with Coding** - Python basics for AI\n\nWhich topic interests you most? Or ask me anything specific!"
  else
    "That\x27s a great question! AI is a vast and exciting field. I can help you learn about:\n\n- Machine Learning fundamentals\n- Neural Networks and Deep Learning\n- Natural Language Processing\n- Computer Vision\n- AI Ethics and Responsible AI\n- Generative AI and LLMs\n\nWhat specific aspect would you like to explore? Feel free to ask anything!"

/-- The greeting with which the `messages` state of both frontends starts. -/
def greeting : String :=
  "Hello! I\x27m your AI Learning Assistant. I\x27m here to help you learn about artificial intelligence and its latest features. What would you like to learn today?"

/-- Full component state of `app.jsx` relevant to one turn. -/
structure AppState where
  messages : List Message
  input : String
  isLoading : Bool
  learnerProfile : LearnerProfile
  sessionData : SessionData
  deriving DecidableEq

/-- Initial component state of `app.jsx`. -/
def initialAppState : AppState :=
  { messages := [⟨"assistant", greeting⟩],
    input := "",
    isLoading := false,
    learnerProfile := initialLearnerProfile,
    sessionData := initialSessionData }

/-- One complete `handleSend` turn of `app.jsx` (lines 102-115), run to
completion: if the trimmed input is empty or a turn is in flight, nothing
happens; otherwise the learner message is appended, `questionsAsked` is
incremented, `generateResponse` updates session and profile and its reply is
appended, and `isLoading` ends `false` again. -/
def handleSendTurn (st : AppState) : AppState :=
  if trimStr st.input = "" ∨ st.isLoading = true then st
  else
    let userMessage := trimStr st.input
    let sd0 : SessionData :=
      { st.sessionData with questionsAsked := st.sessionData.questionsAsked + 1 }
    let sp := generateResponseUpdate userMessage sd0 st.learnerProfile
    { messages := st.messages ++ [⟨"user", userMessage⟩]
        ++ [⟨"assistant", generateReply userMessage⟩],
      input := "",
      isLoading := false,
      learnerProfile := sp.2,
      sessionData := sp.1 }

/- ### Data model of the unnamed TypeScript frontend (`App.tsx`)

This variant keeps the same profile/session state shapes but obtains the
reply, the detected topics, the level and the new progress value from a
backend HTTP call; on a failed call it appends a static fallback reply and
touches neither profile nor topic lists. -/

/-- One chat message of the TypeScript frontend (its `Message` interface,
with the optional `topics` annotation on assistant messages). -/
structure TsMessage where
  role : String
  content : String
  topics : Option (List String)
  deriving DecidableEq

/-- The fields of a successful `POST /api/message` response that
`handleServerResponse` reads. -/
structure ApiResponse where
  message : String
  topics_detected : List String
  student_level : String
  progress : Int
  deriving DecidableEq

/-- Outcome of the backend call made by the TypeScript `handleSend`: either a
successful response body, or any failure (network error or non-ok status). -/
inductive ApiOutcome where
  | ok (d : ApiResponse)
  | err
  deriving DecidableEq

/-- Component state of the TypeScript frontend relevant to one turn. -/
structure TsState where
  messages : List TsMessage
  input : String
  isLoading : Bool
  learnerProfile : LearnerProfile
  sessionData : SessionData
  deriving DecidableEq

/-- The static fallback reply of the TypeScript `handleSend` `catch` block. -/
def connectErrorReply : String :=
  "I\x27m having trouble connecting right now. Please try again in a moment."

/-- Model of `handleServerResponse` of the TypeScript frontend: append the assistant
reply tagged with the detected topics, overwrite level and progress from the
response, union the detected topics into the profile topics and (when any
were detected) into `topicsExplored`, both through `[...new Set(...)]`. -/
def handleServerResponse (d : ApiResponse) (st : TsState) : TsState :=
  { st with
    messages := st.messages ++ [⟨"assistant", d.message, some d.topics_detected⟩],
    learnerProfile :=
      { st.learnerProfile with
        level := d.student_level,
        progress := d.progress,
        topics := jsSetDedup (st.learnerProfile.topics ++ d.topics_detected) },
    sessionData :=
      if 0 < d.topics_detected.length then
        { st.sessionData with
          topicsExplored :=
            jsSetDedup (st.sessionData.topicsExplored ++ d.topics_detected) }
      else st.sessionData }

/-- One complete `handleSend` turn of the TypeScript frontend, run to
completion with the given backend outcome: the same empty-input/in-flight
guard, then the learner message is appended and `questionsAsked` incremented;
on success `handleServerResponse` commits the backend data, on failure only
the static fallback reply is appended; `isLoading` ends `false` either way. -/
def tsHandleSend (st : TsState) (outcome : ApiOutcome) : TsState :=
  if trimStr st.input = "" ∨ st.isLoading = true then st
  else
    let userMessage := trimStr st.input
    let st1 : TsState :=
      { st with
        messages := st.messages ++ [⟨"user", userMessage, none⟩],
        input := "",
        isLoading := true,
        sessionData :=
          { st.sessionData with
            questionsAsked := st.sessionData.questionsAsked + 1 } }
    let st2 :=
      match outcome with
      | .ok d => handleServerResponse d st1
      | .err =>
        { st1 with
          messages := st1.messages
            ++ [({ role := "assistant", content := connectErrorReply,
                   topics := none } : TsMessage)] }
    { st2 with isLoading := false }

/- ### Backend components modelled from the spec -/

/-- Modelled from the spec: a stored `Turn` of the backend Session Store
(role, text, timestamp, detected topics); the store itself is not part of the
repository sources. -/
structure Turn where
  role : String
  text : String
  timestamp : Nat
  detectedTopics : List String
  deriving DecidableEq

/-- Modelled from the spec: the Session Store window size (default 50). -/
def sessionWindow : Nat := 50

/-- Modelled from the spec: appending a Turn to the ordered
sequence, bounded to the most recent `sessionWindow` turns, oldest evicted
first (FIFO by insertion order). -/
def appendTurn (turns : List Turn) (t : Turn) : List Turn :=
  let ts := turns ++ [t]
  if sessionWindow < ts.length then ts.drop (ts.length - sessionWindow) else ts

/-- A concrete stored turn, used to instantiate the window bound. -/
def sampleTurn : Turn :=
  { role := "learner", text := "hi", timestamp := 0, detectedTopics := [] }

/-- A second concrete stored turn, appended to a full window. -/
def sampleTurn2 : Turn :=
  { role := "learner", text := "more", timestamp := 1, detectedTopics := [] }

/-- Modelled from the spec: the Profile `topicMastery` update of §4.4 step 4b
— every newly-seen topic not already in the map is added with an initial
mastery of 0; existing entries are untouched by this step. -/
def masteryUpdate (m : List (String × Rat)) (topicsSeen : List String) :
    List (String × Rat) :=
  topicsSeen.foldl
    (fun acc t => if acc.any fun p => p.1 = t then acc else acc ++ [(t, 0)]) m

/-- Modelled from the spec: one per-day entry of the LearningGraph. -/
structure GraphEntry where
  date : Nat
  topicsTouched : List String
  interactionCount : Nat
  progressSnapshot : Int
  deriving DecidableEq

/-- Modelled from the spec: the LearningGraph Aggregator `record` of §4.5 —
upsert the entry of the day: union `topicsTouched`, increment `interactionCount`,
overwrite `progressSnapshot`. -/
def recordGraph (g : List GraphEntry) (d : Nat) (topics : List String)
    (prog : Int) : List GraphEntry :=
  if g.any fun e => e.date = d then
    g.map fun e =>
      if e.date = d then
        { e with
          topicsTouched := jsSetDedup (e.topicsTouched ++ topics),
          interactionCount := e.interactionCount + 1,
          progressSnapshot := prog }
      else e
  else
    g ++ [({ date := d, topicsTouched := topics, interactionCount := 1,
             progressSnapshot := prog } : GraphEntry)]

/- ### Helper lemmas -/

theorem toNat_ofNat_of_lt (n : Nat) (h : n < 55296) : (Char.ofNat n).toNat = n := by
  have hv : n.isValidChar := Or.inl h
  rw [Char.ofNat, dif_pos hv]
  rfl

theorem lowerChar_idem (c : Char) : lowerChar (lowerChar c) = lowerChar c := by
  unfold lowerChar
  by_cases h : 65 ≤ c.toNat ∧ c.toNat ≤ 90
  · rw [if_pos h]
    have ht : (Char.ofNat (c.toNat + 32)).toNat = c.toNat + 32 :=
      toNat_ofNat_of_lt _ (by omega)
    rw [if_neg (by omega)]
  · rw [if_neg h, if_neg h]

theorem lowerList_idem (l : List Char) :
    (l.map lowerChar).map lowerChar = l.map lowerChar := by
  induction l with
  | nil => rfl
  | cons c l ih => simp [ih, lowerChar_idem]

theorem lowerStr_idem (s : String) : lowerStr (lowerStr s) = lowerStr s := by
  show String.mk ((s.toList.map lowerChar).map lowerChar) = _
  rw [lowerList_idem]; rfl

/-- The two shapes the state update of a turn can take: either nothing changes (no
topic detected, or the detected topic was already explored), or a fresh topic
`t` is appended to `topicsExplored` while `progress` is raised by 15 clamped
at 100 and `t` is added to the profile topics. -/
theorem generateResponseUpdate_cases (m : String) (sd : SessionData)
    (lp : LearnerProfile) :
    generateResponseUpdate m sd lp = (sd, lp) ∨
    ∃ t, t ∉ sd.topicsExplored ∧
      generateResponseUpdate m sd lp =
        ({ sd with topicsExplored := sd.topicsExplored ++ [t] },
         { lp with
            progress := min 100 (lp.progress + 15),
            topics := jsSetDedup (lp.topics ++ [t]) }) := by
  rcases hdet : detectTopic m with _ | t
  · left
    simp only [generateResponseUpdate, hdet]
  · by_cases h : t ∈ sd.topicsExplored
    · left
      simp only [generateResponseUpdate, hdet, if_pos h]
    · right
      exact ⟨t, h, by simp only [generateResponseUpdate, hdet, if_neg h]⟩

theorem jsSetAux_nodup_notmem (l : List String) :
    ∀ seen, (jsSetAux seen l).Nodup ∧ ∀ y ∈ jsSetAux seen l, y ∉ seen := by
  induction l with
  | nil => intro seen; exact ⟨List.nodup_nil, by simp [jsSetAux]⟩
  | cons x xs ih =>
    intro seen
    unfold jsSetAux
    by_cases h : x ∈ seen
    · rw [if_pos h]; exact ih seen
    · rw [if_neg h]
      refine ⟨?_, ?_⟩
      · refine List.nodup_cons.2 ⟨?_, (ih (x :: seen)).1⟩
        intro hx
        exact ((ih (x :: seen)).2 x hx) (List.mem_cons_self x seen)
      · intro y hy
        rcases List.mem_cons.1 hy with rfl | hy'
        · exact h
        · intro hseen
          exact ((ih (x :: seen)).2 y hy') (List.mem_cons_of_mem _ hseen)

theorem jsSetDedup_nodup (l : List String) : (jsSetDedup l).Nodup :=
  (jsSetAux_nodup_notmem l []).1

/-- Any property preserved by the update of a single turn holds after every
sequence of turns. -/
theorem foldl_update_inv (P : SessionData × LearnerProfile → Prop)
    (step : ∀ m sp, P sp → P (generateResponseUpdate m sp.1 sp.2)) :
    ∀ (msgs : List String) (sp : SessionData × LearnerProfile), P sp →
      P (msgs.foldl (fun sp m => generateResponseUpdate m sp.1 sp.2) sp) := by
  intro msgs
  induction msgs with
  | nil => intro sp h; exact h
  | cons m ms ih => intro sp h; exact ih _ (step m sp h)

theorem runUpdates_append (msgs : List String) (m : String) :
    runUpdates (msgs ++ [m]) =
      generateResponseUpdate m (runUpdates msgs).1 (runUpdates msgs).2 := by
  unfold runUpdates
  rw [List.foldl_append]
  rfl

theorem update_progress_bounds_step (m : String)
    (sp : SessionData × LearnerProfile)
    (h : 0 ≤ sp.2.progress ∧ sp.2.progress ≤ 100) :
    0 ≤ (generateResponseUpdate m sp.1 sp.2).2.progress ∧
    (generateResponseUpdate m sp.1 sp.2).2.progress ≤ 100 := by
  rcases generateResponseUpdate_cases m sp.1 sp.2 with heq | ⟨t, _, heq⟩ <;> rw [heq]
  · exact h
  · exact ⟨le_min (by omega) (by omega), min_le_left _ _⟩

/-- From the initial state, progress always stays within `[0, 100]`. -/
theorem runUpdates_progress_bounds (msgs : List String) :
    0 ≤ (runUpdates msgs).2.progress ∧ (runUpdates msgs).2.progress ≤ 100 :=
  foldl_update_inv (fun sp => 0 ≤ sp.2.progress ∧ sp.2.progress ≤ 100)
    update_progress_bounds_step msgs (initialSessionData, initialLearnerProfile)
    ⟨by decide, by decide⟩

/- ### Claim theorems -/

/-- C1: for every turn (one processed learner message) and every starting
session/profile state, the progress of the profile after the turn exceeds its
value before the turn by at most the fixed increment 15, no matter how many
topics the keywords of the message match. -/
theorem progress_increment_at_most_fifteen (m : String) (sd : SessionData)
    (lp : LearnerProfile) :
    (generateResponseUpdate m sd lp).2.progress ≤ lp.progress + 15 := by
  rcases generateResponseUpdate_cases m sd lp with heq | ⟨t, _, heq⟩
  · rw [heq]
    show lp.progress ≤ lp.progress + 15
    omega
  · rw [heq]
    exact min_le_right _ _

/-- C2: across every sequence of consecutive successful turns of one learner
from the initial state (the code has no teacher override), progress is
monotonically non-decreasing: after each turn it is greater than or equal to
its value before that turn. -/
theorem progress_monotone_across_turns (msgs : List String) (m : String) :
    (runUpdates msgs).2.progress ≤ (runUpdates (msgs ++ [m])).2.progress := by
  rw [runUpdates_append]
  rcases generateResponseUpdate_cases m (runUpdates msgs).1 (runUpdates msgs).2
    with heq | ⟨t, _, heq⟩
  · rw [heq]
  · rw [heq]
    have hb := runUpdates_progress_bounds msgs
    show (runUpdates msgs).2.progress ≤ min 100 ((runUpdates msgs).2.progress + 15)
    exact le_min (by omega) (by omega)

/-- C3 counterexample: the claim asserts the follow-up message
"Tell me about neural networks and machine learning" (after a first turn
"What is machine learning?") yields two detected topics, progress 30 and both
topics in `topicsExplored`.  In the code topic detection `break`s at the
first matching table entry, so the follow-up detects only
"Machine Learning Basics" (already explored): progress stays 15 and
"Neural Networks" is never recorded. -/
theorem two_topic_scenario_counterexample :
    detectTopic "Tell me about neural networks and machine learning" =
      some "Machine Learning Basics" ∧
    (runUpdates ["What is machine learning?",
      "Tell me about neural networks and machine learning"]).2.progress = 15 ∧
    "Neural Networks" ∉ (runUpdates ["What is machine learning?",
      "Tell me about neural networks and machine learning"]).1.topicsExplored := by
  refine ⟨by decide, by decide, by decide⟩

/-- C3 (amended): topic detection returns at most one topic per message — the
first topic in table order with a matching keyword.  In the scenario, the
follow-up message "Tell me about neural networks and machine learning"
matches the already-explored "Machine Learning Basics" first, so no new topic
is recorded: `topicsExplored` stays `["Machine Learning Basics"]`, progress
remains 15 and the profile topics list is unchanged. -/
theorem two_topic_scenario_single_detection :
    detectTopic "Tell me about neural networks and machine learning" =
      some "Machine Learning Basics" ∧
    (runUpdates ["What is machine learning?",
      "Tell me about neural networks and machine learning"]).1.topicsExplored =
      ["Machine Learning Basics"] ∧
    (runUpdates ["What is machine learning?",
      "Tell me about neural networks and machine learning"]).2.progress = 15 ∧
    (runUpdates ["What is machine learning?",
      "Tell me about neural networks and machine learning"]).2.topics =
      ["Machine Learning Basics"] := by
  refine ⟨by decide, by decide, by decide, by decide⟩

/-- C4: appending a turn to a Session Store holding at most the configured
window of 50 turns never exceeds the window, and appending to a full window
evicts exactly the oldest stored turn (FIFO by insertion order). -/
theorem session_window_bound (turns : List Turn) (t : Turn)
    (h : turns.length ≤ sessionWindow) :
    (appendTurn turns t).length ≤ sessionWindow ∧
    (turns.length = sessionWindow →
      appendTurn turns t = turns.drop 1 ++ [t]) := by
  have hlen : (turns ++ [t]).length = turns.length + 1 := by
    simp
  unfold sessionWindow at h ⊢
  unfold appendTurn sessionWindow
  by_cases hl : 50 < (turns ++ [t]).length
  · rw [if_pos hl]
    rw [hlen] at hl
    constructor
    · rw [List.length_drop, hlen]
      omega
    · intro h50
      have hone : (turns ++ [t]).length - 50 = 1 := by omega
      rw [hone, List.drop_append_of_le_length (by omega)]
  · rw [if_neg hl]
    rw [hlen] at hl
    constructor
    · rw [hlen]; omega
    · intro h50; omega

/-- C4 witness: the window bound and FIFO eviction discharged on a concrete
full window of 50 stored turns. -/
theorem session_window_bound_witness :
    (List.replicate 50 sampleTurn).length ≤ sessionWindow ∧
    ((appendTurn (List.replicate 50 sampleTurn) sampleTurn2).length ≤
        sessionWindow ∧
      ((List.replicate 50 sampleTurn).length = sessionWindow →
        appendTurn (List.replicate 50 sampleTurn) sampleTurn2 =
          (List.replicate 50 sampleTurn).drop 1 ++ [sampleTurn2])) :=
  ⟨by decide, session_window_bound _ _ (by decide)⟩

/-- C5: for a learner with the empty initial profile who sends
"What is machine learning?", the machine-learning topic is detected, progress
becomes exactly 15 and the topic is recorded in the profile; the spec-modelled
`topicMastery` update gives the topic an initial mastery of 0 and the
spec-modelled LearningGraph records the topic in the entry of that day. -/
theorem first_turn_machine_learning_scenario :
    detectTopic "What is machine learning?" = some "Machine Learning Basics" ∧
    (runUpdates ["What is machine learning?"]).2.progress = 15 ∧
    (runUpdates ["What is machine learning?"]).2.topics =
      ["Machine Learning Basics"] ∧
    masteryUpdate [] ["Machine Learning Basics"] =
      [("Machine Learning Basics", 0)] ∧
    ∃ e ∈ recordGraph [] 0 ["Machine Learning Basics"] 15,
      e.date = 0 ∧ "Machine Learning Basics" ∈ e.topicsTouched := by
  refine ⟨by decide, by decide, by decide, by decide, by decide⟩

/-- C6: for every turn from a starting profile with progress in `[0,100]`,
the progress after the turn lies in `[0,100]`; an increment that would push
progress past 100 is clamped to 100 (unless the turn changes nothing), and
the turn always completes since the update is a total function. -/
theorem progress_in_range_and_clamped (m : String) (sd : SessionData)
    (lp : LearnerProfile) (h0 : 0 ≤ lp.progress) (h1 : lp.progress ≤ 100) :
    (0 ≤ (generateResponseUpdate m sd lp).2.progress ∧
     (generateResponseUpdate m sd lp).2.progress ≤ 100) ∧
    (100 < lp.progress + 15 →
      (generateResponseUpdate m sd lp).2.progress = 100 ∨
      (generateResponseUpdate m sd lp).2.progress = lp.progress) := by
  rcases generateResponseUpdate_cases m sd lp with heq | ⟨t, _, heq⟩ <;> rw [heq]
  · exact ⟨⟨h0, h1⟩, fun _ => Or.inr rfl⟩
  · refine ⟨⟨le_min (by omega) (by omega), min_le_left _ _⟩, fun hover => ?_⟩
    left
    show min 100 (lp.progress + 15) = 100
    rw [min_eq_left (by omega)]

/-- C6 witness: the range and the clamp discharged at a profile with progress
95 and a message that detects a fresh topic, where 95 + 15 is clamped to
100. -/
theorem progress_in_range_and_clamped_witness :
    (0 : Int) ≤ 95 ∧ (95 : Int) ≤ 100 ∧
    ((0 ≤ (generateResponseUpdate "What is machine learning?"
        initialSessionData
        { name := "Student", level := "Beginner", progress := 95,
          topics := [] }).2.progress ∧
      (generateResponseUpdate "What is machine learning?" initialSessionData
        { name := "Student", level := "Beginner", progress := 95,
          topics := [] }).2.progress ≤ 100) ∧
     (100 < (95 : Int) + 15 →
      (generateResponseUpdate "What is machine learning?" initialSessionData
        { name := "Student", level := "Beginner", progress := 95,
          topics := [] }).2.progress = 100 ∨
      (generateResponseUpdate "What is machine learning?" initialSessionData
        { name := "Student", level := "Beginner", progress := 95,
          topics := [] }).2.progress = 95)) :=
  ⟨by decide, by decide,
    progress_in_range_and_clamped _ _ _ (by decide) (by decide)⟩

/-- C7: when the backend call of a turn fails, `handleSend` of the TypeScript
frontend leaves the learner profile completely unchanged and appends to
the conversation exactly the learner message followed by the static
fallback reply — no backend reply is appended. -/
theorem errored_turn_fallback (st : TsState)
    (h : ¬(trimStr st.input = "" ∨ st.isLoading = true)) :
    (tsHandleSend st .err).learnerProfile = st.learnerProfile ∧
    (tsHandleSend st .err).messages =
      st.messages ++
        [({ role := "user", content := trimStr st.input,
            topics := none } : TsMessage),
         ({ role := "assistant", content := connectErrorReply,
            topics := none } : TsMessage)] := by
  unfold tsHandleSend
  rw [if_neg h]
  exact ⟨rfl, by simp⟩

/-- C7 witness: the errored-turn behavior discharged at a concrete state with
a non-empty input and no turn in flight. -/
theorem errored_turn_fallback_witness :
    ¬(trimStr "hello" = "" ∨ false = true) ∧
    ((tsHandleSend
        { messages := [], input := "hello", isLoading := false,
          learnerProfile := initialLearnerProfile,
          sessionData := initialSessionData } .err).learnerProfile =
      initialLearnerProfile ∧
     (tsHandleSend
        { messages := [], input := "hello", isLoading := false,
          learnerProfile := initialLearnerProfile,
          sessionData := initialSessionData } .err).messages =
      [] ++
        [({ role := "user", content := trimStr "hello",
            topics := none } : TsMessage),
         ({ role := "assistant", content := connectErrorReply,
            topics := none } : TsMessage)]) :=
  ⟨by decide, errored_turn_fallback _ (by decide)⟩

/-- C8: topic detection is a total function of the message text alone (it is
a pure Lean function, so it is deterministic, has no side effects, and never
fails — `none`, the empty result, is a valid outcome), and it is
case-insensitive: it returns the same result on a message and on its
lower-cased form. -/
theorem detectTopic_case_insensitive (t : String) :
    detectTopic t = detectTopic (lowerStr t) := by
  unfold detectTopic
  rw [lowerStr_idem]

/-- C9: submitting an empty or whitespace-only message, or submitting while a
previous turn is in flight, is a no-op in both frontends: the component state
(messages, profile, `questionsAsked` and the other session counters) is
returned unchanged. -/
theorem guarded_send_noop (st : AppState) (ts : TsState) (o : ApiOutcome)
    (h1 : trimStr st.input = "" ∨ st.isLoading = true)
    (h2 : trimStr ts.input = "" ∨ ts.isLoading = true) :
    handleSendTurn st = st ∧ tsHandleSend ts o = ts := by
  constructor
  · unfold handleSendTurn
    rw [if_pos h1]
  · unfold tsHandleSend
    rw [if_pos h2]

/-- C9 witness: the no-op discharged at a whitespace-only input in the
`app.jsx` state and an in-flight turn in the TypeScript state. -/
theorem guarded_send_noop_witness :
    (trimStr "   " = "" ∨ false = true) ∧
    (trimStr "What is ML?" = "" ∨ true = true) ∧
    (handleSendTurn
        { messages := [], input := "   ", isLoading := false,
          learnerProfile := initialLearnerProfile,
          sessionData := initialSessionData } =
      { messages := [], input := "   ", isLoading := false,
        learnerProfile := initialLearnerProfile,
        sessionData := initialSessionData } ∧
     tsHandleSend
        { messages := [], input := "What is ML?", isLoading := true,
          learnerProfile := initialLearnerProfile,
          sessionData := initialSessionData } .err =
      { messages := [], input := "What is ML?", isLoading := true,
        learnerProfile := initialLearnerProfile,
        sessionData := initialSessionData }) :=
  ⟨by decide, by decide, guarded_send_noop _ _ _ (by decide) (by decide)⟩

theorem update_nodup_step (m : String) (sp : SessionData × LearnerProfile)
    (h : sp.1.topicsExplored.Nodup ∧ sp.2.topics.Nodup) :
    (generateResponseUpdate m sp.1 sp.2).1.topicsExplored.Nodup ∧
    (generateResponseUpdate m sp.1 sp.2).2.topics.Nodup := by
  rcases generateResponseUpdate_cases m sp.1 sp.2 with heq | ⟨t, ht, heq⟩ <;>
    rw [heq]
  · exact h
  · constructor
    · show (sp.1.topicsExplored ++ [t]).Nodup
      exact List.Nodup.append h.1 (List.nodup_singleton t)
        (List.disjoint_singleton.2 ht)
    · exact jsSetDedup_nodup _

/-- C10: after every sequence of turns from the initial state, neither the
session list `topicsExplored` nor the profile list `topics` contains a
duplicate entry — each topic appears at most once. -/
theorem topics_lists_nodup (msgs : List String) :
    (runUpdates msgs).1.topicsExplored.Nodup ∧
    (runUpdates msgs).2.topics.Nodup :=
  foldl_update_inv
    (fun sp => sp.1.topicsExplored.Nodup ∧ sp.2.topics.Nodup)
    update_nodup_step msgs (initialSessionData, initialLearnerProfile)
    ⟨List.nodup_nil, List.nodup_nil⟩
